import Mathlib

/-!
Verification of the asynchronous job backend (main.py, worker.py).

The embedding models the Result Store (Redis) as an association list from
keys to values with absolute expiry times, the Job Queue as a list of
entries, and the archival sink (Supabase tables) as append-only lists.
External effects (the Gemini generation call, the Supabase insert, the
enqueue operation) are modelled by explicit outcome parameters, since each
is a single opaque call whose result the code branches on.
-/

/-- The Result Store (Redis): a list of (key, value, absolute expiry time)
entries.  A fresh SET shadows older entries for the same key because reads
take the first match. -/
abbrev Store := List (String × String × Nat)

/-- Redis SET with EX: the entry for `key` holds `value` and expires at
absolute time `expiry`. -/
def Store.set (s : Store) (key value : String) (expiry : Nat) : Store :=
  (key, value, expiry) :: s

/-- Redis GET at absolute time `now`: the newest entry for `key`, provided
it has not expired; `none` models a missing key (Redis returns nil). -/
def Store.get (s : Store) (key : String) (now : Nat) : Option String :=
  match s.find? (fun e => e.1 == key) with
  | some e => if now < e.2.2 then some e.2.1 else none
  | none => none

/-- Redis DEL: removes every entry for `key`. -/
def Store.del (s : Store) (key : String) : Store :=
  s.filter (fun e => !(e.1 == key))

/-- Response shape of the poll endpoint `get_job_result` in main.py: a dict
with a `status` field and an optional `analysis` field. -/
structure PollResponse where
  status : String
  analysis : Option String
deriving DecidableEq, Repr

/-- main.py `get_job_result`: reads `result:` ++ job_id from Redis; a truthy
value (non-empty bytes) is returned as status complete with the decoded text
and the key is deleted; `None` or empty bytes give status pending.  Python
truthiness makes the empty string fall into the pending branch.  Returns the
response together with the store after the call. -/
def get_job_result (job_id : String) (now : Nat) (s : Store) :
    PollResponse × Store :=
  let key := "result:" ++ job_id
  match Store.get s key now with
  | some result =>
      if result = "" then ({ status := "pending", analysis := none }, s)
      else ({ status := "complete", analysis := some result }, Store.del s key)
  | none => ({ status := "pending", analysis := none }, s)

/-- Model of the Python method call `.strip()` used on the generation
response text in worker.py: remove leading and trailing whitespace. -/
def pyStrip (s : String) : String :=
  ⟨((s.data.dropWhile Char.isWhitespace).reverse.dropWhile
      Char.isWhitespace).reverse⟩

/-- Pydantic model `TranscriptInput` in main.py (all fields defaulted
strings). -/
structure TranscriptInput where
  company : String
  attendees : String
  date : String
  transcript : String
deriving DecidableEq, Repr

/-- Pydantic model `IcebreakerInput` in main.py. -/
structure IcebreakerInput where
  linkedin_bio : String
  pitch_deck : String
deriving DecidableEq, Repr

/-- A job payload, per endpoint kind. -/
inductive Payload where
  | transcript (item : TranscriptInput)
  | icebreaker (item : IcebreakerInput)
deriving DecidableEq, Repr

/-- An arq queue entry: the registered function name, the generated job id,
and the submitted payload dict. -/
structure QueueEntry where
  function : String
  job_id : String
  payload : Payload
deriving DecidableEq, Repr

/-- Outcome of the single `enqueue_job` call inside the submit endpoints:
it either succeeds or raises with a message. -/
inductive EnqueueOutcome where
  | ok
  | fail (msg : String)
deriving DecidableEq, Repr

/-- Response dict of the submit endpoints in main.py: either
status queued with the job id, or an error dict. -/
inductive SubmitResponse where
  | queued (status : String) (job_id : String)
  | failed (error : String)
deriving DecidableEq, Repr

/-- main.py `queue_transcript_analysis`: a fresh uuid4 job id (passed here
as the parameter `job_id`, since the 128-bit random draw is external) is
enqueued with the payload; on success the endpoint answers status queued
with the id, on an enqueue exception it answers an error dict and the queue
is unchanged.  There is no retry: the single call outcome decides. -/
def queue_transcript_analysis (job_id : String) (item : TranscriptInput)
    (enq : EnqueueOutcome) (q : List QueueEntry) :
    SubmitResponse × List QueueEntry :=
  match enq with
  | .ok => (.queued "queued" job_id,
      q ++ [⟨"run_transcript_analysis", job_id, .transcript item⟩])
  | .fail e => (.failed ("Failed to queue job: " ++ e), q)

/-- main.py `queue_icebreaker_generation`: same shape as the transcript
endpoint. -/
def queue_icebreaker_generation (job_id : String) (item : IcebreakerInput)
    (enq : EnqueueOutcome) (q : List QueueEntry) :
    SubmitResponse × List QueueEntry :=
  match enq with
  | .ok => (.queued "queued" job_id,
      q ++ [⟨"run_icebreaker_generation", job_id, .icebreaker item⟩])
  | .fail e => (.failed ("Failed to queue job: " ++ e), q)

/-- A row of the Supabase `meeting_analysis` table as inserted by
worker.py. -/
structure MeetingRecord where
  company : String
  attendees : String
  date : String
  transcript : String
  analysis : String
deriving DecidableEq, Repr

/-- A row of the Supabase `icebreaker_analysis` table as inserted by
worker.py. -/
structure IcebreakerRecord where
  linkedin_bio : String
  pitch_deck : String
  analysis : String
deriving DecidableEq, Repr

/-- Mutable state a worker job touches: the Redis Result Store and the two
archival tables. -/
structure WorkerState where
  store : Store
  meeting_analysis : List MeetingRecord
  icebreaker_analysis : List IcebreakerRecord
deriving DecidableEq, Repr

/-- Per-job external environment of worker.py: whether the module-level
`transcript_model`, `icebreaker_model` and `supabase` globals were
initialized (non-None), the outcome of the `generate_content` call
(`.ok text` for a response with that `.text`, `.error e` for a raised
exception), and the outcome of the Supabase `insert( ).execute()` call. -/
structure WorkerEnv where
  hasTranscriptModel : Bool
  hasIcebreakerModel : Bool
  hasSupabase : Bool
  gen : Except String String
  archiveOutcome : Except String Unit
deriving Repr

/-- Observable events of one worker job, in execution order. -/
inductive Event where
  | archiveAttempt
  | resultWrite (key : String) (value : String) (ttl : Nat)
deriving DecidableEq, Repr

/-- worker.py `run_transcript_analysis`: with an uninitialized model or
Supabase client it writes the fixed error body to `result:` ++ job_id with
EX 300 and returns; otherwise it calls `generate_content`, strips the
response text, inserts the archival row into `meeting_analysis`, then
writes the stripped output to `result:` ++ job_id with EX 300; any raised
exception e in that try block is caught and `Error: ` ++ e is written to
the same key with EX 300.  Returns the new state with the event trace. -/
def run_transcript_analysis (env : WorkerEnv) (now : Nat) (job_id : String)
    (item : TranscriptInput) (st : WorkerState) :
    WorkerState × List Event :=
  let key := "result:" ++ job_id
  if !env.hasTranscriptModel || !env.hasSupabase then
    ({ st with store := st.store.set key "Error: Worker not initialized" (now + 300) },
     [.resultWrite key "Error: Worker not initialized" 300])
  else
    match env.gen with
    | .error e =>
        ({ st with store := st.store.set key ("Error: " ++ e) (now + 300) },
         [.resultWrite key ("Error: " ++ e) 300])
    | .ok text =>
        let output := pyStrip text
        match env.archiveOutcome with
        | .error e =>
            ({ st with store := st.store.set key ("Error: " ++ e) (now + 300) },
             [.archiveAttempt, .resultWrite key ("Error: " ++ e) 300])
        | .ok _ =>
            ({ st with
                store := st.store.set key output (now + 300),
                meeting_analysis := st.meeting_analysis ++
                  [⟨item.company, item.attendees, item.date, item.transcript, output⟩] },
             [.archiveAttempt, .resultWrite key output 300])

/-- worker.py `run_icebreaker_generation`: identical control flow to the
transcript handler, with the `icebreaker_model` global and the
`icebreaker_analysis` table. -/
def run_icebreaker_generation (env : WorkerEnv) (now : Nat) (job_id : String)
    (item : IcebreakerInput) (st : WorkerState) :
    WorkerState × List Event :=
  let key := "result:" ++ job_id
  if !env.hasIcebreakerModel || !env.hasSupabase then
    ({ st with store := st.store.set key "Error: Worker not initialized" (now + 300) },
     [.resultWrite key "Error: Worker not initialized" 300])
  else
    match env.gen with
    | .error e =>
        ({ st with store := st.store.set key ("Error: " ++ e) (now + 300) },
         [.resultWrite key ("Error: " ++ e) 300])
    | .ok text =>
        let output := pyStrip text
        match env.archiveOutcome with
        | .error e =>
            ({ st with store := st.store.set key ("Error: " ++ e) (now + 300) },
             [.archiveAttempt, .resultWrite key ("Error: " ++ e) 300])
        | .ok _ =>
            ({ st with
                store := st.store.set key output (now + 300),
                icebreaker_analysis := st.icebreaker_analysis ++
                  [⟨item.linkedin_bio, item.pitch_deck, output⟩] },
             [.archiveAttempt, .resultWrite key output 300])

/-- The failure condition of `run_transcript_analysis` in worker.py: the
module-level model or Supabase global is None, the generation call raises,
or the archival insert raises. -/
def transcriptFailure (env : WorkerEnv) : Prop :=
  env.hasTranscriptModel = false ∨ env.hasSupabase = false ∨
    (∃ e, env.gen = Except.error e) ∨
    (∃ e, env.archiveOutcome = Except.error e)

/-- The failure condition of `run_icebreaker_generation` in worker.py. -/
def icebreakerFailure (env : WorkerEnv) : Prop :=
  env.hasIcebreakerModel = false ∨ env.hasSupabase = false ∨
    (∃ e, env.gen = Except.error e) ∨
    (∃ e, env.archiveOutcome = Except.error e)

/-- Reading a key just set returns its value while unexpired. -/
theorem Store.get_set_self (s : Store) (k v : String) (e t : Nat) :
    Store.get (Store.set s k v e) k t = if t < e then some v else none := by
  simp [Store.set, Store.get, List.find?]

/-- Setting one key does not change reads of another key. -/
theorem Store.get_set_ne (s : Store) (k k' v : String) (e t : Nat)
    (h : k' ≠ k) : Store.get (Store.set s k v e) k' t = Store.get s k' t := by
  have hk : (k == k') = false := beq_eq_false_iff_ne.mpr (Ne.symm h)
  simp [Store.set, Store.get, List.find?, hk]

/-- A helper: filtering out all entries of key `k` does not change the first
match for a different key. -/
theorem Store.find_filter (l : Store) (k k' : String) (h : k' ≠ k) :
    List.find? (fun e => e.1 == k') (List.filter (fun e => !(e.1 == k)) l)
      = List.find? (fun e => e.1 == k') l := by
  induction l with
  | nil => rfl
  | cons hd tl ih =>
      by_cases hk : hd.1 = k
      · have h1 : (hd.1 == k) = true := beq_iff_eq.mpr hk
        have h2 : (hd.1 == k') = false := by
          apply beq_eq_false_iff_ne.mpr
          rw [hk]; exact Ne.symm h
        simp [List.filter, List.find?, h1, h2, ih]
      · have h1 : (hd.1 == k) = false := beq_eq_false_iff_ne.mpr hk
        by_cases hk' : hd.1 = k'
        · have h2 : (hd.1 == k') = true := beq_iff_eq.mpr hk'
          simp [List.filter, List.find?, h1, h2]
        · have h2 : (hd.1 == k') = false := beq_eq_false_iff_ne.mpr hk'
          simp [List.filter, List.find?, h1, h2, ih]

/-- Deleting a key makes every later read of it miss. -/
theorem Store.get_del_self (s : Store) (k : String) (t : Nat) :
    Store.get (Store.del s k) k t = none := by
  unfold Store.get Store.del
  have : List.find? (fun e => e.1 == k)
      (List.filter (fun e => !(e.1 == k)) s) = none := by
    rw [List.find?_eq_none]
    intro x hx
    have := List.of_mem_filter hx
    simpa using this
  rw [this]

/-- Deleting one key does not change reads of another key. -/
theorem Store.get_del_ne (s : Store) (k k' : String) (t : Nat) (h : k' ≠ k) :
    Store.get (Store.del s k) k' t = Store.get s k' t := by
  unfold Store.get Store.del
  rw [Store.find_filter s k k' h]

/-- Appending to a fixed string on the left is injective, so distinct job
ids give distinct Result Store keys. -/
theorem String.append_left_cancel_inj (p a b : String) (h : p ++ a = p ++ b) :
    a = b := by
  have hd : (p ++ a).data = (p ++ b).data := by rw [h]
  rw [String.data_append, String.data_append] at hd
  exact String.ext (List.append_cancel_left hd)

/-- A string extended on the right of a non-empty literal is non-empty. -/
theorem String.error_append_ne_empty (m : String) : "Error: " ++ m ≠ "" := by
  intro h
  have hd : ("Error: " ++ m).data = "".data := by rw [h]
  simp [String.data_append] at hd

/-- If the key reads as a non-empty value, the poll answers complete with
that value and deletes the key. -/
theorem poll_complete_of_get (job_id : String) (t : Nat) (s : Store)
    (v : String) (hget : Store.get s ("result:" ++ job_id) t = some v)
    (hv : v ≠ "") :
    get_job_result job_id t s
      = (⟨"complete", some v⟩, Store.del s ("result:" ++ job_id)) := by
  simp only [get_job_result]
  rw [hget]
  simp [hv]

/-- If the key reads as missing, the poll answers pending and leaves the
store unchanged. -/
theorem poll_pending_of_get_none (job_id : String) (t : Nat) (s : Store)
    (hget : Store.get s ("result:" ++ job_id) t = none) :
    get_job_result job_id t s = (⟨"pending", none⟩, s) := by
  simp only [get_job_result]
  rw [hget]

/-- If the key reads as the empty string, Python truthiness sends the poll
into the pending branch: no delete happens. -/
theorem poll_pending_of_get_empty (job_id : String) (t : Nat) (s : Store)
    (hget : Store.get s ("result:" ++ job_id) t = some "") :
    get_job_result job_id t s = (⟨"pending", none⟩, s) := by
  simp only [get_job_result]
  rw [hget]
  simp

/-- Every path of the transcript handler changes the state only by one SET
of `result:` ++ job_id with expiry now + 300, plus (on the success path) an
append to the archival table. -/
theorem run_transcript_store_set (env : WorkerEnv) (now : Nat)
    (job_id : String) (item : TranscriptInput) (st : WorkerState) :
    ∃ v, (run_transcript_analysis env now job_id item st).1.store
        = Store.set st.store ("result:" ++ job_id) v (now + 300) ∧
      (run_transcript_analysis env now job_id item st).1.icebreaker_analysis
        = st.icebreaker_analysis := by
  obtain ⟨tm, im, sb, g, a⟩ := env
  cases tm <;> cases sb <;> cases g <;> cases a <;>
    simp [run_transcript_analysis] <;> exact ⟨_, rfl⟩

/-- Every path of the icebreaker handler changes the state only by one SET
of `result:` ++ job_id with expiry now + 300, plus (on the success path) an
append to the archival table. -/
theorem run_icebreaker_store_set (env : WorkerEnv) (now : Nat)
    (job_id : String) (item : IcebreakerInput) (st : WorkerState) :
    ∃ v, (run_icebreaker_generation env now job_id item st).1.store
        = Store.set st.store ("result:" ++ job_id) v (now + 300) ∧
      (run_icebreaker_generation env now job_id item st).1.meeting_analysis
        = st.meeting_analysis := by
  obtain ⟨tm, im, sb, g, a⟩ := env
  cases im <;> cases sb <;> cases g <;> cases a <;>
    simp [run_icebreaker_generation] <;> exact ⟨_, rfl⟩

/-- On any failure of the transcript handler, the store change is one SET
of an error body under `result:` ++ job_id with expiry now + 300. -/
theorem transcript_failure_store (env : WorkerEnv) (now : Nat)
    (job_id : String) (it : TranscriptInput) (st : WorkerState)
    (hfail : transcriptFailure env) :
    ∃ m, (∃ e, m = "Error: " ++ e) ∧
      (run_transcript_analysis env now job_id it st).1.store
        = Store.set st.store ("result:" ++ job_id) m (now + 300) := by
  obtain ⟨tm, im, sb, g, a⟩ := env
  have hwni : ("Error: Worker not initialized" : String)
      = "Error: " ++ "Worker not initialized" := by decide
  cases tm with
  | false =>
      refine ⟨"Error: Worker not initialized", ⟨"Worker not initialized", hwni⟩, ?_⟩
      simp [run_transcript_analysis]
  | true =>
      cases sb with
      | false =>
          refine ⟨"Error: Worker not initialized", ⟨"Worker not initialized", hwni⟩, ?_⟩
          simp [run_transcript_analysis]
      | true =>
          cases g with
          | error e =>
              refine ⟨"Error: " ++ e, ⟨e, rfl⟩, ?_⟩
              simp [run_transcript_analysis]
          | ok text =>
              cases a with
              | error e =>
                  refine ⟨"Error: " ++ e, ⟨e, rfl⟩, ?_⟩
                  simp [run_transcript_analysis]
              | ok u =>
                  exfalso
                  simp [transcriptFailure] at hfail

/-- On any failure of the icebreaker handler, the store change is one SET
of an error body under `result:` ++ job_id with expiry now + 300. -/
theorem icebreaker_failure_store (env : WorkerEnv) (now : Nat)
    (job_id : String) (ii : IcebreakerInput) (st : WorkerState)
    (hfail : icebreakerFailure env) :
    ∃ m, (∃ e, m = "Error: " ++ e) ∧
      (run_icebreaker_generation env now job_id ii st).1.store
        = Store.set st.store ("result:" ++ job_id) m (now + 300) := by
  obtain ⟨tm, im, sb, g, a⟩ := env
  have hwni : ("Error: Worker not initialized" : String)
      = "Error: " ++ "Worker not initialized" := by decide
  cases im with
  | false =>
      refine ⟨"Error: Worker not initialized", ⟨"Worker not initialized", hwni⟩, ?_⟩
      simp [run_icebreaker_generation]
  | true =>
      cases sb with
      | false =>
          refine ⟨"Error: Worker not initialized", ⟨"Worker not initialized", hwni⟩, ?_⟩
          simp [run_icebreaker_generation]
      | true =>
          cases g with
          | error e =>
              refine ⟨"Error: " ++ e, ⟨e, rfl⟩, ?_⟩
              simp [run_icebreaker_generation]
          | ok text =>
              cases a with
              | error e =>
                  refine ⟨"Error: " ++ e, ⟨e, rfl⟩, ?_⟩
                  simp [run_icebreaker_generation]
              | ok u =>
                  exfalso
                  simp [icebreakerFailure] at hfail

/-- C1 (amended): consume-on-read polling, restricted to non-empty stored
bodies.  For every job id whose result has been written to the Result
Store with a non-empty body, the first poll before the entry expires
returns status complete with the stored body and deletes the entry as part
of that read, and any later poll of the same job id returns status pending
again.  The original claim, stated for every written result, fails when
the stored body is the empty string (see the counterexample): that entry
is reported pending and never deleted. -/
theorem C1_consume_on_read_amended (s : Store) (job_id v : String)
    (e t1 t2 : Nat) (hv : v ≠ "") (h1 : t1 < e) :
    get_job_result job_id t1 (Store.set s ("result:" ++ job_id) v e)
        = (⟨"complete", some v⟩,
           Store.del (Store.set s ("result:" ++ job_id) v e)
             ("result:" ++ job_id)) ∧
    (get_job_result job_id t2
        (get_job_result job_id t1
          (Store.set s ("result:" ++ job_id) v e)).2).1
      = ⟨"pending", none⟩ := by
  have hget : Store.get (Store.set s ("result:" ++ job_id) v e)
      ("result:" ++ job_id) t1 = some v := by
    rw [Store.get_set_self]
    simp [h1]
  have hfirst := poll_complete_of_get job_id t1 _ v hget hv
  refine ⟨hfirst, ?_⟩
  rw [hfirst]
  rw [poll_pending_of_get_none job_id t2 _ (Store.get_del_self _ _ t2)]

/-- C1 witness: a concrete non-empty result is consumed by its first poll
and the next poll reports pending. -/
theorem C1_consume_on_read_witness :
    ("hi" : String) ≠ "" ∧ (5 : Nat) < 300 ∧
    (get_job_result "j" 5 (Store.set [] ("result:" ++ "j") "hi" 300)
        = (⟨"complete", some "hi"⟩,
           Store.del (Store.set [] ("result:" ++ "j") "hi" 300)
             ("result:" ++ "j")) ∧
     (get_job_result "j" 9
        (get_job_result "j" 5
          (Store.set [] ("result:" ++ "j") "hi" 300)).2).1
       = ⟨"pending", none⟩) :=
  ⟨by decide, by decide,
   C1_consume_on_read_amended [] "j" "hi" 300 5 9 (by decide) (by decide)⟩

/-- C1 counterexample: the worker stores the stripped generation text, so
an all-whitespace external response stores the empty string; then the
first poll already returns pending and leaves the store unchanged (no
delete), so no subsequent poll ever returns complete, refuting the claim
that exactly one subsequent poll returns complete with the stored body. -/
theorem C1_counterexample :
    (run_transcript_analysis
        ⟨true, true, true, Except.ok " ", Except.ok ()⟩ 0 "j"
        ⟨"c", "a", "d", "t"⟩ ⟨[], [], []⟩).1.store
      = [("result:j", "", 300)] ∧
    get_job_result "j" 0 [("result:j", "", 300)]
      = (⟨"pending", none⟩, [("result:j", "", 300)]) := by decide

/-- C5: the poll endpoint answers exactly one of two shapes for every
store, job id and time: status pending with no analysis field, or status
complete with a non-empty analysis text.  The endpoint is a total
function, so an accepted job id never produces a hard failure, and error
outcomes (stored as non-empty `Error: ` bodies) fall under the complete
shape rather than a distinct status. -/
theorem C5_poll_response_shape (job_id : String) (now : Nat) (s : Store) :
    (get_job_result job_id now s).1 = ⟨"pending", none⟩ ∨
    ∃ v, v ≠ "" ∧ (get_job_result job_id now s).1 = ⟨"complete", some v⟩ := by
  cases hg : Store.get s ("result:" ++ job_id) now with
  | none =>
      left
      rw [poll_pending_of_get_none job_id now s hg]
  | some v =>
      by_cases hv : v = ""
      · left
        subst hv
        rw [poll_pending_of_get_empty job_id now s hg]
      · right
        exact ⟨v, hv, by rw [poll_complete_of_get job_id now s v hg hv]⟩

/-- After one SET of a non-empty body, an unexpired read sees it and the
poll answers complete with it. -/
theorem poll_complete_of_store_set (job_id m : String) (s0 : Store)
    (now t : Nat) (hm : m ≠ "") (ht : t < now + 300) (s : Store)
    (hs : s = Store.set s0 ("result:" ++ job_id) m (now + 300)) :
    Store.get s ("result:" ++ job_id) t = some m ∧
    (get_job_result job_id t s).1 = ⟨"complete", some m⟩ := by
  subst hs
  have hget : Store.get (Store.set s0 ("result:" ++ job_id) m (now + 300))
      ("result:" ++ job_id) t = some m := by
    rw [Store.get_set_self, if_pos ht]
  exact ⟨hget, by rw [poll_complete_of_get job_id t _ m hget hm]⟩

/-- C2: worker failure handling.  For every dequeued job of either kind,
if the generation call raises, the archival insert raises, or a dependency
global is uninitialized, the handler catches the failure and still writes
an `Error: ` body under `result:` ++ job_id with the fixed TTL, so an
unexpired poll reports an error-flavored completion instead of pending
forever.  The handlers are total functions of the failure environment, so
no failure escapes to crash the worker loop. -/
theorem C2_worker_failure_writes_error (env : WorkerEnv) (now : Nat)
    (jt ji : String) (it : TranscriptInput) (ii : IcebreakerInput)
    (st st2 : WorkerState) (t : Nat)
    (hft : transcriptFailure env) (hfi : icebreakerFailure env)
    (ht : t < now + 300) :
    (∃ e, Store.get (run_transcript_analysis env now jt it st).1.store
          ("result:" ++ jt) t = some ("Error: " ++ e) ∧
       (get_job_result jt t
          (run_transcript_analysis env now jt it st).1.store).1
         = ⟨"complete", some ("Error: " ++ e)⟩) ∧
    (∃ e, Store.get (run_icebreaker_generation env now ji ii st2).1.store
          ("result:" ++ ji) t = some ("Error: " ++ e) ∧
       (get_job_result ji t
          (run_icebreaker_generation env now ji ii st2).1.store).1
         = ⟨"complete", some ("Error: " ++ e)⟩) := by
  constructor
  · obtain ⟨m, ⟨e, hm⟩, hstore⟩ := transcript_failure_store env now jt it st hft
    subst hm
    exact ⟨e, poll_complete_of_store_set jt ("Error: " ++ e) st.store now t
      (String.error_append_ne_empty e) ht _ hstore⟩
  · obtain ⟨m, ⟨e, hm⟩, hstore⟩ :=
      icebreaker_failure_store env now ji ii st2 hfi
    subst hm
    exact ⟨e, poll_complete_of_store_set ji ("Error: " ++ e) st2.store now t
      (String.error_append_ne_empty e) ht _ hstore⟩

/-- C2 witness: with no Supabase client and a raised generation call, both
handlers store an error body and the poll completes with it. -/
theorem C2_worker_failure_witness :
    transcriptFailure ⟨true, true, false, Except.error "boom", Except.ok ()⟩ ∧
    icebreakerFailure ⟨true, true, false, Except.error "boom", Except.ok ()⟩ ∧
    (0 : Nat) < 0 + 300 ∧
    ((∃ e, Store.get (run_transcript_analysis
          ⟨true, true, false, Except.error "boom", Except.ok ()⟩ 0 "a"
          ⟨"c", "at", "d", "tr"⟩ ⟨[], [], []⟩).1.store
          ("result:" ++ "a") 0 = some ("Error: " ++ e) ∧
       (get_job_result "a" 0 (run_transcript_analysis
          ⟨true, true, false, Except.error "boom", Except.ok ()⟩ 0 "a"
          ⟨"c", "at", "d", "tr"⟩ ⟨[], [], []⟩).1.store).1
         = ⟨"complete", some ("Error: " ++ e)⟩) ∧
     (∃ e, Store.get (run_icebreaker_generation
          ⟨true, true, false, Except.error "boom", Except.ok ()⟩ 0 "b"
          ⟨"bio", "deck"⟩ ⟨[], [], []⟩).1.store
          ("result:" ++ "b") 0 = some ("Error: " ++ e) ∧
       (get_job_result "b" 0 (run_icebreaker_generation
          ⟨true, true, false, Except.error "boom", Except.ok ()⟩ 0 "b"
          ⟨"bio", "deck"⟩ ⟨[], [], []⟩).1.store).1
         = ⟨"complete", some ("Error: " ++ e)⟩)) :=
  ⟨Or.inr (Or.inl rfl), Or.inr (Or.inl rfl), by decide,
   C2_worker_failure_writes_error
     ⟨true, true, false, Except.error "boom", Except.ok ()⟩ 0 "a" "b"
     ⟨"c", "at", "d", "tr"⟩ ⟨"bio", "deck"⟩ ⟨[], [], []⟩ ⟨[], [], []⟩ 0
     (Or.inr (Or.inl rfl)) (Or.inr (Or.inl rfl)) (by decide)⟩

/-- C6: Result Store entry lifecycle.  Every path of both handlers changes
the Result Store by exactly one SET under `result:` ++ job_id with the
fixed 300-second TTL, and if the entry is never polled before the TTL
elapses, a read at or after expiry misses and the poll reports pending. -/
theorem C6_ttl_lifecycle (env : WorkerEnv) (now : Nat) (jt ji : String)
    (it : TranscriptInput) (ii : IcebreakerInput) (st st2 : WorkerState)
    (t : Nat) (ht : now + 300 ≤ t) :
    ((∃ v, (run_transcript_analysis env now jt it st).1.store
        = Store.set st.store ("result:" ++ jt) v (now + 300)) ∧
     Store.get (run_transcript_analysis env now jt it st).1.store
       ("result:" ++ jt) t = none ∧
     (get_job_result jt t
        (run_transcript_analysis env now jt it st).1.store).1
       = ⟨"pending", none⟩) ∧
    ((∃ v, (run_icebreaker_generation env now ji ii st2).1.store
        = Store.set st2.store ("result:" ++ ji) v (now + 300)) ∧
     Store.get (run_icebreaker_generation env now ji ii st2).1.store
       ("result:" ++ ji) t = none ∧
     (get_job_result ji t
        (run_icebreaker_generation env now ji ii st2).1.store).1
       = ⟨"pending", none⟩) := by
  obtain ⟨v, hv, hvi⟩ := run_transcript_store_set env now jt it st
  obtain ⟨w, hw, hwm⟩ := run_icebreaker_store_set env now ji ii st2
  have hgt : Store.get (run_transcript_analysis env now jt it st).1.store
      ("result:" ++ jt) t = none := by
    rw [hv, Store.get_set_self, if_neg (Nat.not_lt.mpr ht)]
  have hgi : Store.get (run_icebreaker_generation env now ji ii st2).1.store
      ("result:" ++ ji) t = none := by
    rw [hw, Store.get_set_self, if_neg (Nat.not_lt.mpr ht)]
  exact ⟨⟨⟨v, hv⟩, hgt, by rw [poll_pending_of_get_none jt t _ hgt]⟩,
         ⟨⟨w, hw⟩, hgi, by rw [poll_pending_of_get_none ji t _ hgi]⟩⟩

/-- C6 witness: a concretely processed job stores under the result key
with TTL 300 and a poll at expiry time reports pending. -/
theorem C6_ttl_lifecycle_witness :
    (0 : Nat) + 300 ≤ 300 ∧
    (((∃ v, (run_transcript_analysis
          ⟨true, true, true, Except.ok "out", Except.ok ()⟩ 0 "a"
          ⟨"c", "at", "d", "tr"⟩ ⟨[], [], []⟩).1.store
        = Store.set [] ("result:" ++ "a") v (0 + 300)) ∧
      Store.get (run_transcript_analysis
          ⟨true, true, true, Except.ok "out", Except.ok ()⟩ 0 "a"
          ⟨"c", "at", "d", "tr"⟩ ⟨[], [], []⟩).1.store
        ("result:" ++ "a") 300 = none ∧
      (get_job_result "a" 300 (run_transcript_analysis
          ⟨true, true, true, Except.ok "out", Except.ok ()⟩ 0 "a"
          ⟨"c", "at", "d", "tr"⟩ ⟨[], [], []⟩).1.store).1
        = ⟨"pending", none⟩) ∧
     ((∃ v, (run_icebreaker_generation
          ⟨true, true, true, Except.ok "out", Except.ok ()⟩ 0 "b"
          ⟨"bio", "deck"⟩ ⟨[], [], []⟩).1.store
        = Store.set [] ("result:" ++ "b") v (0 + 300)) ∧
      Store.get (run_icebreaker_generation
          ⟨true, true, true, Except.ok "out", Except.ok ()⟩ 0 "b"
          ⟨"bio", "deck"⟩ ⟨[], [], []⟩).1.store
        ("result:" ++ "b") 300 = none ∧
      (get_job_result "b" 300 (run_icebreaker_generation
          ⟨true, true, true, Except.ok "out", Except.ok ()⟩ 0 "b"
          ⟨"bio", "deck"⟩ ⟨[], [], []⟩).1.store).1
        = ⟨"pending", none⟩)) :=
  ⟨by decide,
   C6_ttl_lifecycle ⟨true, true, true, Except.ok "out", Except.ok ()⟩ 0
     "a" "b" ⟨"c", "at", "d", "tr"⟩ ⟨"bio", "deck"⟩ ⟨[], [], []⟩
     ⟨[], [], []⟩ 300 (by decide)⟩

/-- C3: for a valid submission whose generated uuid4 job id is fresh (the
128-bit random draw is external, so freshness enters as the hypothesis
that the Result Store has no entry under the id), the endpoint answers
status queued with that id immediately after the single enqueue call, the
job is appended to the queue, and a poll issued right after the submission
reports pending. -/
theorem C3_fresh_submit_then_pending (job_id : String)
    (item : TranscriptInput) (q : List QueueEntry) (s : Store) (t : Nat)
    (hfresh : Store.get s ("result:" ++ job_id) t = none) :
    queue_transcript_analysis job_id item .ok q
      = (.queued "queued" job_id,
         q ++ [⟨"run_transcript_analysis", job_id, .transcript item⟩]) ∧
    get_job_result job_id t s = (⟨"pending", none⟩, s) :=
  ⟨rfl, poll_pending_of_get_none job_id t s hfresh⟩

/-- C3 witness: a concrete fresh submission against the empty store. -/
theorem C3_fresh_submit_witness :
    Store.get [] ("result:" ++ "x") 0 = none ∧
    (queue_transcript_analysis "x" ⟨"c", "a", "d", "t"⟩ .ok []
        = (.queued "queued" "x",
           [] ++ [⟨"run_transcript_analysis", "x",
                   .transcript ⟨"c", "a", "d", "t"⟩⟩]) ∧
     get_job_result "x" 0 [] = (⟨"pending", none⟩, [])) :=
  ⟨by decide, C3_fresh_submit_then_pending "x" ⟨"c", "a", "d", "t"⟩ [] [] 0
    (by decide)⟩

/-- C7: on enqueue failure both submit endpoints answer the caller
synchronously with an explicit error dict, the queue is unchanged (no job
created) and no retry happens (the single call outcome decides the
response); two submissions whose generated uuid4 ids differ return
distinct queued responses, so a resubmission produces a new job id. -/
theorem C7_enqueue_failure (jt ji : String) (it : TranscriptInput)
    (ii : IcebreakerInput) (e : String) (q : List QueueEntry) :
    queue_transcript_analysis jt it (.fail e) q
      = (.failed ("Failed to queue job: " ++ e), q) ∧
    queue_icebreaker_generation ji ii (.fail e) q
      = (.failed ("Failed to queue job: " ++ e), q) ∧
    (∀ id1 id2 : String, id1 ≠ id2 →
      (queue_transcript_analysis id1 it .ok q).1
        ≠ (queue_transcript_analysis id2 it .ok q).1) := by
  refine ⟨rfl, rfl, ?_⟩
  intro id1 id2 h hc
  injection hc with h1 h2
  exact h h2

/-- C7 witness: a concrete enqueue failure and a concrete resubmission
with a different generated id. -/
theorem C7_enqueue_failure_witness :
    (queue_transcript_analysis "x" ⟨"c", "a", "d", "t"⟩ (.fail "down") []
        = (.failed ("Failed to queue job: " ++ "down"), []) ∧
     queue_icebreaker_generation "y" ⟨"bio", "deck"⟩ (.fail "down") []
        = (.failed ("Failed to queue job: " ++ "down"), [])) ∧
    (queue_transcript_analysis "x" ⟨"c", "a", "d", "t"⟩ .ok []).1
      ≠ (queue_transcript_analysis "y" ⟨"c", "a", "d", "t"⟩ .ok []).1 :=
  ⟨⟨(C7_enqueue_failure "x" "y" ⟨"c", "a", "d", "t"⟩ ⟨"bio", "deck"⟩
       "down" []).1,
    (C7_enqueue_failure "x" "y" ⟨"c", "a", "d", "t"⟩ ⟨"bio", "deck"⟩
       "down" []).2.1⟩,
   (C7_enqueue_failure "x" "y" ⟨"c", "a", "d", "t"⟩ ⟨"bio", "deck"⟩
       "down" []).2.2 "x" "y" (by decide)⟩

/-- C4 (amended): within a single transcript job, whenever the archival
write is attempted it is attempted before the Result-Store write, and on
every path that reaches the generation output (initialized dependencies
and a returned generation text) the archival attempt precedes the result
write.  The original claim, that every poll observing complete was
preceded by an archival attempt, fails on the error paths: a failed
generation call writes an error result with no archival attempt, and the
poll still observes status complete (see the counterexample). -/
theorem C4_archival_before_result_amended (env : WorkerEnv) (now : Nat)
    (job_id : String) (it : TranscriptInput) (st : WorkerState) :
    (∃ v, (run_transcript_analysis env now job_id it st).2
        = [Event.resultWrite ("result:" ++ job_id) v 300] ∨
      (run_transcript_analysis env now job_id it st).2
        = [Event.archiveAttempt,
           Event.resultWrite ("result:" ++ job_id) v 300]) ∧
    (env.hasTranscriptModel = true → env.hasSupabase = true →
      ∀ g, env.gen = Except.ok g →
        ∃ v, (run_transcript_analysis env now job_id it st).2
          = [Event.archiveAttempt,
             Event.resultWrite ("result:" ++ job_id) v 300]) := by
  obtain ⟨tm, im, sb, g, a⟩ := env
  cases tm with
  | false =>
      refine ⟨⟨"Error: Worker not initialized",
        Or.inl (by simp [run_transcript_analysis])⟩, ?_⟩
      intro htm
      exact absurd htm (by simp)
  | true =>
      cases sb with
      | false =>
          refine ⟨⟨"Error: Worker not initialized",
            Or.inl (by simp [run_transcript_analysis])⟩, ?_⟩
          intro _ hsb
          exact absurd hsb (by simp)
      | true =>
          cases g with
          | error e =>
              refine ⟨⟨"Error: " ++ e,
                Or.inl (by simp [run_transcript_analysis])⟩, ?_⟩
              intro _ _ g hg
              exact absurd hg (by simp)
          | ok text =>
              cases a with
              | error e =>
                  exact ⟨⟨"Error: " ++ e,
                    Or.inr (by simp [run_transcript_analysis])⟩,
                    fun _ _ g _ => ⟨"Error: " ++ e,
                      by simp [run_transcript_analysis]⟩⟩
              | ok u =>
                  exact ⟨⟨pyStrip text,
                    Or.inr (by simp [run_transcript_analysis])⟩,
                    fun _ _ g _ => ⟨pyStrip text,
                      by simp [run_transcript_analysis]⟩⟩

/-- C4 witness: a concrete successful job attempts the archival write
before the result write. -/
theorem C4_archival_before_result_witness :
    (∃ v, (run_transcript_analysis
        ⟨true, true, true, Except.ok " x ", Except.ok ()⟩ 0 "j"
        ⟨"c", "a", "d", "t"⟩ ⟨[], [], []⟩).2
        = [Event.resultWrite ("result:" ++ "j") v 300] ∨
      (run_transcript_analysis
        ⟨true, true, true, Except.ok " x ", Except.ok ()⟩ 0 "j"
        ⟨"c", "a", "d", "t"⟩ ⟨[], [], []⟩).2
        = [Event.archiveAttempt,
           Event.resultWrite ("result:" ++ "j") v 300]) ∧
    (∃ v, (run_transcript_analysis
        ⟨true, true, true, Except.ok " x ", Except.ok ()⟩ 0 "j"
        ⟨"c", "a", "d", "t"⟩ ⟨[], [], []⟩).2
        = [Event.archiveAttempt,
           Event.resultWrite ("result:" ++ "j") v 300]) :=
  ⟨(C4_archival_before_result_amended
      ⟨true, true, true, Except.ok " x ", Except.ok ()⟩ 0 "j"
      ⟨"c", "a", "d", "t"⟩ ⟨[], [], []⟩).1,
   (C4_archival_before_result_amended
      ⟨true, true, true, Except.ok " x ", Except.ok ()⟩ 0 "j"
      ⟨"c", "a", "d", "t"⟩ ⟨[], [], []⟩).2 rfl rfl " x " rfl⟩

/-- C4 counterexample: with a failed generation call the worker writes the
error result without any archival attempt, yet the poll observes status
complete, so a poll observing complete is not guaranteed a prior archival
attempt. -/
theorem C4_counterexample :
    (get_job_result "j" 0 (run_transcript_analysis
        ⟨true, true, true, Except.error "boom", Except.ok ()⟩ 0 "j"
        ⟨"c", "a", "d", "t"⟩ ⟨[], [], []⟩).1.store).1.status
      = "complete" ∧
    Event.archiveAttempt ∉ (run_transcript_analysis
        ⟨true, true, true, Except.error "boom", Except.ok ()⟩ 0 "j"
        ⟨"c", "a", "d", "t"⟩ ⟨[], [], []⟩).2 := by decide

/-- C8: job independence.  For two jobs with distinct job ids, processing
job a mutates only the entry under `result:` ++ a and leaves every read of
job b unchanged, polling job a leaves every read of job b unchanged, and
two submissions with identical payloads whose generated ids differ return
distinct queued responses with independent result keys. -/
theorem C8_job_independence (a b : String) (hab : a ≠ b)
    (env : WorkerEnv) (now t : Nat) (it : TranscriptInput)
    (st : WorkerState) (q : List QueueEntry) :
    Store.get (run_transcript_analysis env now a it st).1.store
        ("result:" ++ b) t
      = Store.get st.store ("result:" ++ b) t ∧
    Store.get (get_job_result a now st.store).2 ("result:" ++ b) t
      = Store.get st.store ("result:" ++ b) t ∧
    (queue_transcript_analysis a it .ok q).1
      ≠ (queue_transcript_analysis b it .ok q).1 ∧
    ("result:" ++ a) ≠ ("result:" ++ b) := by
  have hkey : ("result:" ++ b) ≠ ("result:" ++ a) := fun h =>
    hab (String.append_left_cancel_inj "result:" b a h).symm
  refine ⟨?_, ?_, ?_, ?_⟩
  · obtain ⟨v, hv, _⟩ := run_transcript_store_set env now a it st
    rw [hv]
    exact Store.get_set_ne st.store ("result:" ++ a) ("result:" ++ b) v
      (now + 300) t hkey
  · cases hg : Store.get st.store ("result:" ++ a) now with
    | none => rw [poll_pending_of_get_none a now st.store hg]
    | some v =>
        by_cases hv : v = ""
        · subst hv
          rw [poll_pending_of_get_empty a now st.store hg]
        · rw [poll_complete_of_get a now st.store v hg hv]
          exact Store.get_del_ne st.store ("result:" ++ a)
            ("result:" ++ b) t hkey
  · intro hc
    injection hc with h1 h2
    exact hab h2
  · exact Ne.symm hkey

/-- C8 witness: two concrete jobs with distinct ids do not interfere. -/
theorem C8_job_independence_witness :
    ("a" : String) ≠ "b" ∧
    (Store.get (run_transcript_analysis
        ⟨true, true, true, Except.ok "out", Except.ok ()⟩ 0 "a"
        ⟨"c", "at", "d", "tr"⟩
        ⟨[("result:b", "vb", 300)], [], []⟩).1.store ("result:" ++ "b") 0
      = Store.get [("result:b", "vb", 300)] ("result:" ++ "b") 0 ∧
    Store.get (get_job_result "a" 0 [("result:b", "vb", 300)]).2
        ("result:" ++ "b") 0
      = Store.get [("result:b", "vb", 300)] ("result:" ++ "b") 0 ∧
    (queue_transcript_analysis "a" ⟨"c", "at", "d", "tr"⟩ .ok []).1
      ≠ (queue_transcript_analysis "b" ⟨"c", "at", "d", "tr"⟩ .ok []).1 ∧
    ("result:" ++ "a") ≠ ("result:" ++ "b")) :=
  ⟨by decide,
   C8_job_independence "a" "b" (by decide)
     ⟨true, true, true, Except.ok "out", Except.ok ()⟩ 0 0
     ⟨"c", "at", "d", "tr"⟩ ⟨[("result:b", "vb", 300)], [], []⟩ []⟩

/-- C9: when the external call returns only whitespace the worker strips
it and stores the empty string under `result:` ++ job_id; every unexpired
poll of that id then falls into the Python falsy branch: it reports
pending and does not delete the key, so the completed job is reported
pending on every poll until the TTL elapses. -/
theorem C9_empty_result_pending (env : WorkerEnv) (now t : Nat)
    (job_id : String) (it : TranscriptInput) (st : WorkerState)
    (g : String) (htm : env.hasTranscriptModel = true)
    (hsb : env.hasSupabase = true) (hg : env.gen = Except.ok g)
    (ha : env.archiveOutcome = Except.ok ()) (hws : pyStrip g = "")
    (ht : t < now + 300) :
    Store.get (run_transcript_analysis env now job_id it st).1.store
      ("result:" ++ job_id) t = some "" ∧
    get_job_result job_id t
        (run_transcript_analysis env now job_id it st).1.store
      = (⟨"pending", none⟩,
         (run_transcript_analysis env now job_id it st).1.store) := by
  obtain ⟨tm, im, sb, gen, ar⟩ := env
  simp only at htm hsb hg ha
  subst htm hsb hg ha
  have hstore : (run_transcript_analysis
      ⟨true, im, true, Except.ok g, Except.ok ()⟩ now job_id it st).1.store
      = Store.set st.store ("result:" ++ job_id) (pyStrip g) (now + 300) := by
    simp [run_transcript_analysis]
  rw [hstore, hws]
  have hget : Store.get
      (Store.set st.store ("result:" ++ job_id) "" (now + 300))
      ("result:" ++ job_id) t = some "" := by
    rw [Store.get_set_self, if_pos ht]
  exact ⟨hget, poll_pending_of_get_empty job_id t _ hget⟩

/-- C9 witness: a concrete whitespace-only generation response leaves the
poll pending forever before expiry. -/
theorem C9_empty_result_witness :
    pyStrip " " = "" ∧
    (Store.get (run_transcript_analysis
        ⟨true, true, true, Except.ok " ", Except.ok ()⟩ 0 "j"
        ⟨"c", "a", "d", "t"⟩ ⟨[], [], []⟩).1.store ("result:" ++ "j") 0
      = some "" ∧
    get_job_result "j" 0 (run_transcript_analysis
        ⟨true, true, true, Except.ok " ", Except.ok ()⟩ 0 "j"
        ⟨"c", "a", "d", "t"⟩ ⟨[], [], []⟩).1.store
      = (⟨"pending", none⟩, (run_transcript_analysis
          ⟨true, true, true, Except.ok " ", Except.ok ()⟩ 0 "j"
          ⟨"c", "a", "d", "t"⟩ ⟨[], [], []⟩).1.store)) :=
  ⟨by decide,
   C9_empty_result_pending ⟨true, true, true, Except.ok " ", Except.ok ()⟩
     0 0 "j" ⟨"c", "a", "d", "t"⟩ ⟨[], [], []⟩ " " rfl rfl rfl rfl
     (by decide) (by decide)⟩

/-- C10: on the success path the stored Result Store text, the analysis
field of the appended archival row, and the body of the first successful
poll are all the stripped generation response (assumed non-empty so that a
successful poll exists). -/
theorem C10_success_agreement (env : WorkerEnv) (now t : Nat)
    (job_id : String) (it : TranscriptInput) (st : WorkerState)
    (g : String) (htm : env.hasTranscriptModel = true)
    (hsb : env.hasSupabase = true) (hg : env.gen = Except.ok g)
    (ha : env.archiveOutcome = Except.ok ()) (hne : pyStrip g ≠ "")
    (ht : t < now + 300) :
    Store.get (run_transcript_analysis env now job_id it st).1.store
      ("result:" ++ job_id) t = some (pyStrip g) ∧
    (run_transcript_analysis env now job_id it st).1.meeting_analysis
      = st.meeting_analysis ++
        [⟨it.company, it.attendees, it.date, it.transcript, pyStrip g⟩] ∧
    (get_job_result job_id t
        (run_transcript_analysis env now job_id it st).1.store).1
      = ⟨"complete", some (pyStrip g)⟩ := by
  obtain ⟨tm, im, sb, gen, ar⟩ := env
  simp only at htm hsb hg ha
  subst htm hsb hg ha
  have hrun : run_transcript_analysis
      ⟨true, im, true, Except.ok g, Except.ok ()⟩ now job_id it st
      = (⟨Store.set st.store ("result:" ++ job_id) (pyStrip g) (now + 300),
          st.meeting_analysis ++
            [⟨it.company, it.attendees, it.date, it.transcript,
              pyStrip g⟩],
          st.icebreaker_analysis⟩,
         [Event.archiveAttempt,
          Event.resultWrite ("result:" ++ job_id) (pyStrip g) 300]) := by
    simp [run_transcript_analysis]
  rw [hrun]
  obtain ⟨hget, hpoll⟩ := poll_complete_of_store_set job_id (pyStrip g)
    st.store now t hne ht _ rfl
  exact ⟨hget, rfl, hpoll⟩

/-- C10 witness: a concrete successful job agrees on the stored text, the
archival row and the poll body. -/
theorem C10_success_agreement_witness :
    pyStrip " out " ≠ "" ∧
    (Store.get (run_transcript_analysis
        ⟨true, true, true, Except.ok " out ", Except.ok ()⟩ 0 "j"
        ⟨"c", "a", "d", "t"⟩ ⟨[], [], []⟩).1.store ("result:" ++ "j") 0
      = some (pyStrip " out ") ∧
    (run_transcript_analysis
        ⟨true, true, true, Except.ok " out ", Except.ok ()⟩ 0 "j"
        ⟨"c", "a", "d", "t"⟩ ⟨[], [], []⟩).1.meeting_analysis
      = [] ++ [⟨"c", "a", "d", "t", pyStrip " out "⟩] ∧
    (get_job_result "j" 0 (run_transcript_analysis
        ⟨true, true, true, Except.ok " out ", Except.ok ()⟩ 0 "j"
        ⟨"c", "a", "d", "t"⟩ ⟨[], [], []⟩).1.store).1
      = ⟨"complete", some (pyStrip " out ")⟩) :=
  ⟨by decide,
   C10_success_agreement ⟨true, true, true, Except.ok " out ", Except.ok ()⟩
     0 0 "j" ⟨"c", "a", "d", "t"⟩ ⟨[], [], []⟩ " out " rfl rfl rfl rfl
     (by decide) (by decide)⟩
